import Mathlib

/-!
Verification of the hyperswitch repository: a shallow embedding of the
Multisafepay connector transformer layer
(crates/hyperswitch_connectors/src/connectors/multisafepay/transformers.rs)
and the ClickHouse analytics aggregate compiler
(crates/analytics/src/clickhouse.rs), together with theorems settling the
frozen specification claims about them.
-/

namespace Hyperswitch

/-! ## Analytics query builder (crates/analytics/src/clickhouse.rs) -/

/-- Table engine descriptor: CollapsingMergeTree carries the name of its sign
column, BasicTree is a plain table. -/
inductive TableEngine where
  | CollapsingMergeTree (sign : String)
  | BasicTree
deriving DecidableEq

/-- Aggregate expression tree, parameterized by the field type T, mirroring
the Rust enum Aggregate with its six variants. The alias field is named al
in this embedding. -/
inductive Aggregate (T : Type) where
  | Count (field : Option T) (al : Option String)
  | Sum (field : T) (al : Option String)
  | Min (field : T) (al : Option String)
  | Max (field : T) (al : Option String)
  | Percentile (field : T) (al : Option String) (percentile : Option Nat)
  | DistinctCount (field : T) (al : Option String)

/-- Compilation error: the underlying ParsingError cause plus the stack of
attached printable descriptions (error_stack attach_printable). -/
structure CompileError where
  cause : String
  attached : List String
deriving DecidableEq

/-- Push one attached printable description onto a compile error, as
error_stack attach_printable does. -/
def attachPrintable (msg : String) (e : CompileError) : CompileError :=
  { e with attached := msg :: e.attached }

/-- Propagate a field compilation result, attaching the given description on
the error path; this is the shape of field.to_sql(engine).attach_printable(m)?
in the Rust source. -/
def attachOnError (msg : String) (r : Except CompileError String) :
    Except CompileError String :=
  match r with
  | .ok v => .ok v
  | .error e => .error (attachPrintable msg e)

/-- Alias clause rendering: alias.map_or_else of an empty string versus
" as {alias}". -/
def aliasClause (al : Option String) : String :=
  match al with
  | none => ""
  | some a => " as " ++ a

/-- ToSql for Aggregate over the ClickHouse client, translated arm by arm
from clickhouse.rs lines 492-571. The field compiler fts stands for the
ToSql instance of the field type T. -/
def Aggregate.toSql {T : Type} (fts : T → TableEngine → Except CompileError String)
    (agg : Aggregate T) (eng : TableEngine) : Except CompileError String :=
  match agg with
  | .Count _ al =>
      let query :=
        match eng with
        | .CollapsingMergeTree sign => "sum(" ++ sign ++ ")"
        | .BasicTree => "count(*)"
      .ok (query ++ aliasClause al)
  | .Sum field al => do
      let query ←
        match eng with
        | .CollapsingMergeTree sign => do
            let f ← attachOnError "Failed to sum aggregate" (fts field eng)
            pure ("sum(" ++ sign ++ " * " ++ f ++ ")")
        | .BasicTree => do
            let f ← attachOnError "Failed to sum aggregate" (fts field eng)
            pure ("sum(" ++ f ++ ")")
      pure (query ++ aliasClause al)
  | .Min field al => do
      let f ← attachOnError "Failed to min aggregate" (fts field eng)
      pure ("min(" ++ f ++ ")" ++ aliasClause al)
  | .Max field al => do
      let f ← attachOnError "Failed to max aggregate" (fts field eng)
      pure ("max(" ++ f ++ ")" ++ aliasClause al)
  | .Percentile field al percentile => do
      let f ← attachOnError "Failed to percentile aggregate" (fts field eng)
      pure ("quantilesExact(0." ++
        (match percentile with
         | none => "50"
         | some p => toString p) ++ ")(" ++ f ++ ")[1]" ++ aliasClause al)
  | .DistinctCount field al => do
      let f ← attachOnError "Failed to percentile aggregate" (fts field eng)
      pure ("count(distinct " ++ f ++ ")" ++ aliasClause al)

/-- Decimal value of one character, when it is a digit. -/
def decDigitVal (c : Char) : Option Nat :=
  if 48 ≤ c.toNat ∧ c.toNat ≤ 57 then some (c.toNat - 48) else none

/-- Decimal value of a character list, when it is a non-empty digit string. -/
def decDigitsVal : List Char → Option Nat
  | [] => none
  | cs => cs.foldl (fun acc c => acc.bind (fun a => (decDigitVal c).map (fun d => 10 * a + d))) (some 0)

/-- Numerator of the quantile denoted by the digit string the compiler places
after the literal "0." in the quantilesExact call. -/
def quantileValue (digits : String) : Nat := (decDigitsVal digits.toList).getD 0

/-- Denominator of the quantile denoted by that digit string: digits of
length n scale by 10 ^ n. -/
def quantileScale (digits : String) : Nat := 10 ^ digits.toList.length

/-- Two digit strings placed after "0." denote the same quantile when their
fractions value / scale agree (compared by cross multiplication). -/
def sameQuantile (d1 d2 : String) : Prop :=
  quantileValue d1 * quantileScale d2 = quantileValue d2 * quantileScale d1

/-! ## Multisafepay connector transformers
(crates/hyperswitch_connectors/src/connectors/multisafepay/transformers.rs) -/

/-- Canonical attempt status (common_enums AttemptStatus); only the variants
reachable from the Multisafepay transformer code are modelled. -/
inductive AttemptStatus where
  | Charged
  | Failure
  | Voided
  | Pending
  | AuthenticationPending
  | AuthenticationFailed
  | AuthorizationFailed
  | CaptureFailed
  | VoidFailed
deriving DecidableEq

/-- Connector error taxonomy (hyperswitch_interfaces errors ConnectorError);
only the variants raised by the Multisafepay transformer file are modelled. -/
inductive ConnectorError where
  | NotImplemented (message : String)
  | NotSupported (message : String) (connector : String)
  | MissingRequiredField (field_name : String)
  | FailedToObtainAuthType
deriving DecidableEq

/-- Modelled from the spec: utils::get_unimplemented_payment_method_error_message
lives outside this repository slice; it renders the NotImplemented message for
a connector name. The exact text does not affect any claim. -/
def get_unimplemented_payment_method_error_message (connector : String) : String :=
  "Selected payment method through " ++ connector

/-- Payment type sent to Multisafepay (the Rust enum named Type; renamed here
because Type is a Lean keyword). -/
inductive PaymentType where
  | Direct
  | Redirect
deriving DecidableEq

/-- Multisafepay gateway identifiers. -/
inductive Gateway where
  | Amex
  | CreditCard
  | Discover
  | Maestro
  | MasterCard
  | Visa
  | Klarna
  | Googlepay
  | Paypal
  | Ideal
  | Giropay
  | Trustly
  | Alipay
  | WeChatPay
  | Eps
  | MbWay
  | Sofort
deriving DecidableEq

/-- Card issuer as detected by utils::get_card_issuer (BIN detection outside
this file); the nine issuers distinguished by the Gateway TryFrom impl. -/
inductive CardIssuer where
  | AmericanExpress
  | Master
  | Maestro
  | Discover
  | Visa
  | DinersClub
  | JCB
  | CarteBlanche
  | CartesBancaires
deriving DecidableEq

/-- TryFrom utils::CardIssuer for Gateway, transformers.rs lines 489-507. -/
def Gateway.tryFromIssuer (issuer : CardIssuer) : Except ConnectorError Gateway :=
  match issuer with
  | .AmericanExpress => .ok .Amex
  | .Master => .ok .MasterCard
  | .Maestro => .ok .Maestro
  | .Discover => .ok .Discover
  | .Visa => .ok .Visa
  | .DinersClub
  | .JCB
  | .CarteBlanche
  | .CartesBancaires =>
      .error (.NotImplemented (get_unimplemented_payment_method_error_message "Multisafe pay"))

/-- Canonical bank-name enum (common_enums BankNames); the constructor list is
reconstructed from the exhaustive match in transformers.rs lines 262-417. -/
inductive BankNames where
  | AbnAmro
  | AsnBank
  | Bunq
  | Ing
  | Knab
  | N26
  | NationaleNederlanden
  | Rabobank
  | Regiobank
  | Revolut
  | SnsBank
  | TriodosBank
  | VanLanschot
  | Yoursafe
  | Handelsbanken
  | AmericanExpress
  | AffinBank
  | AgroBank
  | AllianceBank
  | AmBank
  | BankOfAmerica
  | BankOfChina
  | BankIslam
  | BankMuamalat
  | BankRakyat
  | BankSimpananNasional
  | Barclays
  | BlikPSP
  | CapitalOne
  | Chase
  | Citi
  | CimbBank
  | Discover
  | NavyFederalCreditUnion
  | PentagonFederalCreditUnion
  | SynchronyBank
  | WellsFargo
  | HongLeongBank
  | HsbcBank
  | KuwaitFinanceHouse
  | Moneyou
  | ArzteUndApothekerBank
  | AustrianAnadiBankAg
  | BankAustria
  | Bank99Ag
  | BankhausCarlSpangler
  | BankhausSchelhammerUndSchatteraAg
  | BankMillennium
  | BankPEKAOSA
  | BawagPskAg
  | BksBankAg
  | BrullKallmusBankAg
  | BtvVierLanderBank
  | CapitalBankGraweGruppeAg
  | CeskaSporitelna
  | Dolomitenbank
  | EasybankAg
  | EPlatbyVUB
  | ErsteBankUndSparkassen
  | FrieslandBank
  | HypoAlpeadriabankInternationalAg
  | HypoNoeLbFurNiederosterreichUWien
  | HypoOberosterreichSalzburgSteiermark
  | HypoTirolBankAg
  | HypoVorarlbergBankAg
  | HypoBankBurgenlandAktiengesellschaft
  | KomercniBanka
  | MBank
  | MarchfelderBank
  | Maybank
  | OberbankAg
  | OsterreichischeArzteUndApothekerbank
  | OcbcBank
  | PayWithING
  | PlaceZIPKO
  | PlatnoscOnlineKartaPlatnicza
  | PosojilnicaBankEGen
  | PostovaBanka
  | PublicBank
  | RaiffeisenBankengruppeOsterreich
  | RhbBank
  | SchelhammerCapitalBankAg
  | StandardCharteredBank
  | SchoellerbankAg
  | SpardaBankWien
  | SporoPay
  | SantanderPrzelew24
  | TatraPay
  | Viamo
  | VolksbankGruppe
  | VolkskreditbankAg
  | VrBankBraunau
  | UobBank
  | PayWithAliorBank
  | BankiSpoldzielcze
  | PayWithInteligo
  | BNPParibasPoland
  | BankNowySA
  | CreditAgricole
  | PayWithBOS
  | PayWithCitiHandlowy
  | PayWithPlusBank
  | ToyotaBank
  | VeloBank
  | ETransferPocztowy24
  | PlusBank
  | EtransferPocztowy24
  | BankiSpbdzielcze
  | BankNowyBfgSa
  | GetinBank
  | Blik
  | NoblePay
  | IdeaBank
  | EnveloBank
  | NestPrzelew
  | MbankMtransfer
  | Inteligo
  | PbacZIpko
  | BnpParibas
  | BankPekaoSa
  | VolkswagenBank
  | AliorBank
  | Boz
  | BangkokBank
  | KrungsriBank
  | KrungThaiBank
  | TheSiamCommercialBank
  | KasikornBank
  | OpenBankSuccess
  | OpenBankFailure
  | OpenBankCancelled
  | Aib
  | BankOfScotland
  | DanskeBank
  | FirstDirect
  | FirstTrust
  | Halifax
  | Lloyds
  | Monzo
  | NatWest
  | NationwideBank
  | RoyalBankOfScotland
  | Starling
  | TsbBank
  | TescoBank
  | UlsterBank
deriving DecidableEq

/-- Multisafepay bank-name catalog (vendor issuer ids), transformers.rs
lines 228-260. -/
inductive MultisafepayBankNames where
  | AbnAmro
  | AsnBank
  | Bunq
  | Ing
  | Knab
  | N26
  | NationaleNederlanden
  | Rabobank
  | Regiobank
  | Revolut
  | SnsBank
  | TriodosBank
  | VanLanschot
  | Yoursafe
  | Handelsbanken
deriving DecidableEq

/-- TryFrom common_enums BankNames for MultisafepayBankNames, transformers.rs
lines 262-417: fifteen supported banks, every other canonical bank name is
NotSupported with message BankRedirect and connector Multisafepay. -/
def MultisafepayBankNames.tryFromBankNames (bank : BankNames) :
    Except ConnectorError MultisafepayBankNames :=
  match bank with
  | .AbnAmro => .ok .AbnAmro
  | .AsnBank => .ok .AsnBank
  | .Bunq => .ok .Bunq
  | .Ing => .ok .Ing
  | .Knab => .ok .Knab
  | .N26 => .ok .N26
  | .NationaleNederlanden => .ok .NationaleNederlanden
  | .Rabobank => .ok .Rabobank
  | .Regiobank => .ok .Regiobank
  | .Revolut => .ok .Revolut
  | .SnsBank => .ok .SnsBank
  | .TriodosBank => .ok .TriodosBank
  | .VanLanschot => .ok .VanLanschot
  | .Yoursafe => .ok .Yoursafe
  | .Handelsbanken => .ok .Handelsbanken
  | _ => .error (.NotSupported "BankRedirect" "Multisafepay")

/-- Modelled from the spec: the vendor-to-canonical direction of the bank-name
round trip. The source file only defines the canonical-to-vendor TryFrom; the
reverse map sends each vendor catalog entry to the identically named canonical
bank name. -/
def MultisafepayBankNames.toBankNames (bank : MultisafepayBankNames) : BankNames :=
  match bank with
  | .AbnAmro => .AbnAmro
  | .AsnBank => .AsnBank
  | .Bunq => .Bunq
  | .Ing => .Ing
  | .Knab => .Knab
  | .N26 => .N26
  | .NationaleNederlanden => .NationaleNederlanden
  | .Rabobank => .Rabobank
  | .Regiobank => .Regiobank
  | .Revolut => .Revolut
  | .SnsBank => .SnsBank
  | .TriodosBank => .TriodosBank
  | .VanLanschot => .VanLanschot
  | .Yoursafe => .Yoursafe
  | .Handelsbanken => .Handelsbanken

/-- Supported canonical bank names of the Multisafepay catalog, in source
order. -/
def multisafepaySupportedBanks : List BankNames :=
  [.AbnAmro, .AsnBank, .Bunq, .Ing, .Knab, .N26, .NationaleNederlanden,
   .Rabobank, .Regiobank, .Revolut, .SnsBank, .TriodosBank, .VanLanschot,
   .Yoursafe, .Handelsbanken]

/-- Vendor error response body, transformers.rs lines 1257-1261. The i32
error_code is modelled as Int (no arithmetic is performed on it). -/
structure MultisafepayErrorResponse where
  error_code : Int
  error_info : String
deriving DecidableEq

/-- Error codes of the first group of the vendor error-code table
(AuthenticationFailed), transformers.rs lines 1266-1292. -/
def multisafepayAuthenticationFailedCodes : List Int :=
  [10001, 1002, 1003, 1004, 1005, 1006, 1007, 1008, 1010, 1011, 1012, 1013,
   1015, 1016, 1018, 1025, 1026, 1027, 1028, 1029, 1030, 1031, 1035, 1036,
   5001, 1032]

/-- Error codes of the second group of the vendor error-code table (Failure),
transformers.rs lines 1296-1299. -/
def multisafepayFailureCodes : List Int :=
  [1034, 1022, 1024]

/-- From MultisafepayErrorResponse for Option AttemptStatus, transformers.rs
lines 1263-1305: the curated vendor error-code lookup table. The Rust
or-pattern groups are rendered as list membership tests. -/
def multisafepayErrorStatus (error_data : MultisafepayErrorResponse) :
    Option AttemptStatus :=
  if error_data.error_code ∈ multisafepayAuthenticationFailedCodes then
    some .AuthenticationFailed
  else if error_data.error_code ∈ multisafepayFailureCodes then
    some .Failure
  else if error_data.error_code = 1017 then
    some .AuthorizationFailed
  else
    none

/-- Every error code appearing in the curated lookup table. -/
def multisafepayCuratedCodes : List Int :=
  multisafepayAuthenticationFailedCodes ++ multisafepayFailureCodes ++ [1017]

/-! ### Canonical payment-method data (hyperswitch_domain_models) as consumed
by the Multisafepay authorize builder. Secret wrappers are dropped; payloads
never read by this file are dropped from the constructors. -/

/-- Canonical card data. The issuer field carries the result of the external
utils::get_card_issuer BIN detection (outside this file); the claims quantify
over it directly. -/
structure Card where
  card_number : String
  card_exp_month : String
  card_exp_year : String
  card_cvc : String
  issuer : CardIssuer
deriving DecidableEq

/-- Canonical wallet variants, with the payloads read by this file (only the
GooglePay tokenization token is read). -/
inductive WalletData where
  | AliPayQr
  | AliPayRedirect
  | AliPayHkRedirect
  | AmazonPayRedirect
  | Paysera
  | Skrill
  | MomoRedirect
  | KakaoPayRedirect
  | GoPayRedirect
  | GcashRedirect
  | ApplePay
  | ApplePayRedirect
  | ApplePayThirdPartySdk
  | DanaRedirect
  | GooglePay (tokenization_data_token : String)
  | GooglePayRedirect
  | GooglePayThirdPartySdk
  | MbWayRedirect
  | MobilePayRedirect
  | PaypalRedirect
  | PaypalSdk
  | Paze
  | SamsungPay
  | TwintRedirect
  | VippsRedirect
  | TouchNGoRedirect
  | WeChatPayRedirect
  | WeChatPayQr
  | CashappQr
  | SwishQr
  | Mifinity
  | RevolutPay
deriving DecidableEq

/-- Canonical bank-redirect variants; only the Ideal bank name is read. -/
inductive BankRedirectData where
  | BancontactCard
  | Bizum
  | Blik
  | Eft
  | Eps
  | Giropay
  | Ideal (bank_name : Option BankNames)
  | Interac
  | OnlineBankingCzechRepublic
  | OnlineBankingFinland
  | OnlineBankingPoland
  | OnlineBankingSlovakia
  | OpenBankingUk
  | Przelewy24
  | Sofort
  | Trustly
  | OnlineBankingFpx
  | OnlineBankingThailand
  | LocalBankRedirect
deriving DecidableEq

/-- Canonical pay-later variants. -/
inductive PayLaterData where
  | KlarnaRedirect
  | KlarnaSdk
  | AffirmRedirect
  | AfterpayClearpayRedirect
  | PayBrightRedirect
  | WalleyRedirect
  | AlmaRedirect
  | AtomeRedirect
  | BreadpayRedirect
deriving DecidableEq

/-- Canonical payment-method tagged union. -/
inductive PaymentMethodData where
  | Card (card : Card)
  | CardRedirect
  | Wallet (wallet : WalletData)
  | PayLater (paylater : PayLaterData)
  | BankRedirect (bank : BankRedirectData)
  | BankDebit
  | BankTransfer
  | Crypto
  | MandatePayment
  | Reward
  | RealTimePayment
  | MobilePayment
  | Upi
  | Voucher
  | GiftCard
  | OpenBanking
  | CardToken
  | NetworkToken
  | CardDetailsForNetworkTransactionId
deriving DecidableEq

/-- Mandate reference id (api_models, outside this file); the builder only
distinguishes ConnectorMandateId, whose payload getter returns an optional
connector mandate id. -/
inductive MandateReferenceId where
  | ConnectorMandateId (connector_mandate_id : Option String)
  | NetworkMandateId (id : String)
  | NetworkTokenWithNTI
deriving DecidableEq

/-- Mandate ids attached to the authorize request. -/
structure MandateIds where
  mandate_reference_id : Option MandateReferenceId
deriving DecidableEq

/-- Billing address details with the optional fields read through the
AddressDetailsData getters. Country is modelled as its alpha-2 string. -/
structure AddressDetails where
  first_name : Option String
  last_name : Option String
  line1 : Option String
  line2 : Option String
  zip : Option String
  city : Option String
  country : Option String
deriving DecidableEq

/-- Address wrapper: get_billing yields an Address whose address detail block
is optional. -/
structure Address where
  address : Option AddressDetails
deriving DecidableEq

/-- Authorize request data as read by the builder: payment method, currency
(rendered string), optional email, return URL, mandate information and the
flag computed by utils is_mandate_payment (modelled as a field because that
helper lives outside this file). -/
structure PaymentsAuthorizeData where
  payment_method_data : PaymentMethodData
  currency : String
  email : Option String
  router_return_url : Option String
  mandate_id : Option MandateIds
  mandate_payment_flag : Bool
deriving DecidableEq

/-- Router data for the authorize flow with the fields the builder reads. The
billing_email field backs the utils get_billing_email helper (outside this
file). -/
structure PaymentsAuthorizeRouterData where
  request : PaymentsAuthorizeData
  description : Option String
  connector_request_reference_id : String
  billing : Option Address
  billing_email : Option String
deriving DecidableEq

/-- Amount-wrapping router data handed to the builder. MinorUnit (i64) is
modelled as Int. -/
structure MultisafepayRouterData where
  amount : Int
  router_data : PaymentsAuthorizeRouterData
deriving DecidableEq

/-- Modelled from the spec: utils RouterData get_description, a required-field
getter outside this file. -/
def get_description (rd : PaymentsAuthorizeRouterData) : Except ConnectorError String :=
  match rd.description with
  | some d => .ok d
  | none => .error (.MissingRequiredField "description")

/-- Modelled from the spec: utils get_router_return_url, a required-field
getter outside this file. -/
def get_router_return_url (r : PaymentsAuthorizeData) : Except ConnectorError String :=
  match r.router_return_url with
  | some u => .ok u
  | none => .error (.MissingRequiredField "return_url")

/-- Modelled from the spec: utils RouterData get_billing, a required-field
getter outside this file. -/
def get_billing (rd : PaymentsAuthorizeRouterData) : Except ConnectorError Address :=
  match rd.billing with
  | some a => .ok a
  | none => .error (.MissingRequiredField "billing")

/-- Modelled from the spec: utils get_billing_email, a required-field getter
outside this file. -/
def get_billing_email (rd : PaymentsAuthorizeRouterData) : Except ConnectorError String :=
  match rd.billing_email with
  | some e => .ok e
  | none => .error (.MissingRequiredField "email")

/-- Modelled from the spec: AddressDetailsData get_first_name. -/
def AddressDetails.get_first_name (a : AddressDetails) : Except ConnectorError String :=
  match a.first_name with
  | some v => .ok v
  | none => .error (.MissingRequiredField "address.first_name")

/-- Modelled from the spec: AddressDetailsData get_last_name. -/
def AddressDetails.get_last_name (a : AddressDetails) : Except ConnectorError String :=
  match a.last_name with
  | some v => .ok v
  | none => .error (.MissingRequiredField "address.last_name")

/-- Modelled from the spec: AddressDetailsData get_line1. -/
def AddressDetails.get_line1 (a : AddressDetails) : Except ConnectorError String :=
  match a.line1 with
  | some v => .ok v
  | none => .error (.MissingRequiredField "address.line1")

/-- Modelled from the spec: AddressDetailsData get_line2. -/
def AddressDetails.get_line2 (a : AddressDetails) : Except ConnectorError String :=
  match a.line2 with
  | some v => .ok v
  | none => .error (.MissingRequiredField "address.line2")

/-- Modelled from the spec: AddressDetailsData get_zip. -/
def AddressDetails.get_zip (a : AddressDetails) : Except ConnectorError String :=
  match a.zip with
  | some v => .ok v
  | none => .error (.MissingRequiredField "address.zip")

/-- Modelled from the spec: AddressDetailsData get_city. -/
def AddressDetails.get_city (a : AddressDetails) : Except ConnectorError String :=
  match a.city with
  | some v => .ok v
  | none => .error (.MissingRequiredField "address.city")

/-- Modelled from the spec: AddressDetailsData get_country. -/
def AddressDetails.get_country (a : AddressDetails) : Except ConnectorError String :=
  match a.country with
  | some v => .ok v
  | none => .error (.MissingRequiredField "address.country")

/-- Result unwrap_or: recover from an Except error with a default, as Rust
Result unwrap_or does. -/
def exceptUnwrapOr {e a : Type} (r : Except e a) (d : a) : a :=
  match r with
  | .ok v => v
  | .error _ => d

/-- Modelled from the spec: utils CardData get_card_expiry_year_2_digit takes
the last two characters of the expiry year; malformed years outside two or
four digit shapes are not exercised by any claim. -/
def Card.get_card_expiry_year_2_digit (c : Card) : Except ConnectorError String :=
  .ok (c.card_exp_year.takeRight 2)

/-- Rust str parse to i32 with unwrap_or_default: a plain decimal digit string
within i32 range parses to its value, everything else collapses to 0. -/
def parse_i32_or_default (s : String) : Int :=
  match s.toNat? with
  | some n => if n ≤ 2147483647 then (n : Int) else 0
  | none => 0

/-! ### Multisafepay authorize request wire types -/

/-- Coupons settings block. -/
structure Coupons where
  allow : Option (List String)
deriving DecidableEq

/-- Mistercash gateway settings block. -/
structure Mistercash where
  mobile_pay_button_position : Option String
  disable_mobile_pay_button : Option String
  qr_only : Option String
  qr_size : Option String
deriving DecidableEq

/-- Gateways settings block. -/
structure Gateways where
  mistercash : Option Mistercash
deriving DecidableEq

/-- Settings block of the payment options. -/
structure Settings where
  coupons : Option Coupons
  gateways : Option Gateways
deriving DecidableEq

/-- Payment options block of the vendor request. -/
structure PaymentOptions where
  notification_url : Option String
  notification_method : Option String
  redirect_url : String
  cancel_url : String
  close_window : Option Bool
  settings : Option Settings
  template_id : Option String
  allowed_countries : Option (List String)
deriving DecidableEq

/-- Browser block of the customer object. -/
structure Browser where
  javascript_enabled : Option Bool
  java_enabled : Option Bool
  cookies_enabled : Option Bool
  language : Option String
  screen_color_depth : Option Int
  screen_height : Option Int
  screen_width : Option Int
  time_zone : Option Int
  user_agent : Option String
  platform : Option String
deriving DecidableEq

/-- Customer block of the vendor request. -/
structure Customer where
  browser : Option Browser
  locale : Option String
  ip_address : Option String
  forward_ip : Option String
  first_name : Option String
  last_name : Option String
  gender : Option String
  birthday : Option String
  address1 : Option String
  address2 : Option String
  house_number : Option String
  zip_code : Option String
  city : Option String
  state : Option String
  country : Option String
  phone : Option String
  email : Option String
  user_agent : Option String
  referrer : Option String
  reference : Option String
deriving DecidableEq

/-- Card gateway-info block; the i32 expiry date is modelled as Int. -/
structure CardInfo where
  card_number : Option String
  card_holder_name : Option String
  card_expiry_date : Option Int
  card_cvc : Option String
  flexible_3d : Option Bool
  moto : Option Bool
  term_url : Option String
deriving DecidableEq

/-- Google pay gateway-info block. -/
structure GpayInfo where
  payment_token : Option String
deriving DecidableEq

/-- Pay-later gateway-info block. -/
structure PayLaterInfo where
  email : Option String
deriving DecidableEq

/-- Ideal gateway-info block carrying the vendor issuer id. -/
structure IdealInfo where
  issuer_id : MultisafepayBankNames
deriving DecidableEq

/-- Wallet gateway-info variants; Alipay, WeChatPay and MbWay carry empty
payload structs in the source. -/
inductive WalletInfo where
  | GooglePay (info : GpayInfo)
  | Alipay
  | WeChatPay
  | MbWay
deriving DecidableEq

/-- Bank-redirect gateway-info variants; Trustly, Eps and Sofort carry empty
payload structs in the source. -/
inductive BankRedirectInfo where
  | Ideal (info : IdealInfo)
  | Trustly
  | Eps
  | Sofort
deriving DecidableEq

/-- Gateway-info untagged union. -/
inductive GatewayInfo where
  | Card (info : CardInfo)
  | Wallet (info : WalletInfo)
  | PayLater (info : PayLaterInfo)
  | BankRedirect (info : BankRedirectInfo)
deriving DecidableEq

/-- Recurring mandate model. -/
inductive MandateType where
  | Unscheduled
deriving DecidableEq

/-- Delivery block of the vendor request. -/
structure DeliveryObject where
  first_name : String
  last_name : String
  address1 : String
  house_number : String
  zip_code : String
  city : String
  country : String
deriving DecidableEq

/-- Item of a shopping cart; the FloatMajorUnit (f64) unit price is modelled
as a rational placeholder, never constructed by the embedded operations. -/
structure Item where
  name : String
  unit_price : ℚ
  description : Option String
  quantity : Int
deriving DecidableEq

/-- Shopping cart block. -/
structure ShoppingCart where
  items : List Item
deriving DecidableEq

/-- Tax default object; the f64 rate is modelled as a rational placeholder,
never constructed by the embedded operations. -/
structure DefaultObject where
  shipping_taxed : Bool
  rate : ℚ
deriving DecidableEq

/-- Tax tables block. -/
structure TaxObject where
  default : DefaultObject
deriving DecidableEq

/-- Checkout options block. -/
structure CheckoutOptions where
  validate_cart : Option Bool
  tax_tables : TaxObject
deriving DecidableEq

/-- Multisafepay payments (authorize) request body, transformers.rs
lines 462-487. -/
structure MultisafepayPaymentsRequest where
  payment_type : PaymentType
  gateway : Option Gateway
  order_id : String
  currency : String
  amount : Int
  description : String
  payment_options : Option PaymentOptions
  customer : Option Customer
  gateway_info : Option GatewayInfo
  delivery : Option DeliveryObject
  checkout_options : Option CheckoutOptions
  shopping_cart : Option ShoppingCart
  items : Option String
  recurring_model : Option MandateType
  recurring_id : Option String
  capture : Option String
  days_active : Option Int
  seconds_active : Option Int
  var1 : Option String
  var2 : Option String
  var3 : Option String
deriving DecidableEq

/-- Payment-type routing of the authorize builder, transformers.rs
lines 516-582: first step of the TryFrom body. -/
def multisafepayPaymentTypeOf (pmd : PaymentMethodData) :
    Except ConnectorError PaymentType :=
  match pmd with
  | .Card _ => .ok .Direct
  | .MandatePayment => .ok .Direct
  | .Wallet wallet_data =>
      match wallet_data with
      | .GooglePay _ => .ok .Direct
      | .PaypalRedirect => .ok .Redirect
      | .AliPayRedirect => .ok .Redirect
      | .WeChatPayRedirect => .ok .Redirect
      | .MbWayRedirect => .ok .Redirect
      | .AliPayQr
      | .AliPayHkRedirect
      | .AmazonPayRedirect
      | .Paysera
      | .Skrill
      | .MomoRedirect
      | .KakaoPayRedirect
      | .GoPayRedirect
      | .GcashRedirect
      | .ApplePay
      | .ApplePayRedirect
      | .ApplePayThirdPartySdk
      | .DanaRedirect
      | .GooglePayRedirect
      | .GooglePayThirdPartySdk
      | .MobilePayRedirect
      | .PaypalSdk
      | .Paze
      | .SamsungPay
      | .TwintRedirect
      | .VippsRedirect
      | .TouchNGoRedirect
      | .WeChatPayQr
      | .CashappQr
      | .SwishQr
      | .Mifinity
      | .RevolutPay =>
          .error (.NotImplemented (get_unimplemented_payment_method_error_message "multisafepay"))
  | .BankRedirect bank_data =>
      match bank_data with
      | .Giropay => .ok .Redirect
      | .Ideal _ => .ok .Direct
      | .Trustly => .ok .Redirect
      | .Eps => .ok .Redirect
      | .Sofort => .ok .Redirect
      | .BancontactCard
      | .Bizum
      | .Blik
      | .Eft
      | .Interac
      | .OnlineBankingCzechRepublic
      | .OnlineBankingFinland
      | .OnlineBankingPoland
      | .OnlineBankingSlovakia
      | .OpenBankingUk
      | .Przelewy24
      | .OnlineBankingFpx
      | .OnlineBankingThailand
      | .LocalBankRedirect =>
          .error (.NotImplemented (get_unimplemented_payment_method_error_message "multisafepay"))
  | .PayLater _ => .ok .Redirect
  | _ => .ok .Redirect

/-- Gateway selection of the authorize builder, transformers.rs
lines 584-670: second step of the TryFrom body. -/
def multisafepayGatewayOf (pmd : PaymentMethodData) :
    Except ConnectorError (Option Gateway) :=
  match pmd with
  | .Card ccard => do
      let g ← Gateway.tryFromIssuer ccard.issuer
      .ok (some g)
  | .Wallet wallet_data =>
      match wallet_data with
      | .GooglePay _ => .ok (some .Googlepay)
      | .PaypalRedirect => .ok (some .Paypal)
      | .AliPayRedirect => .ok (some .Alipay)
      | .WeChatPayRedirect => .ok (some .WeChatPay)
      | .MbWayRedirect => .ok (some .MbWay)
      | .AliPayQr
      | .AliPayHkRedirect
      | .AmazonPayRedirect
      | .Paysera
      | .Skrill
      | .MomoRedirect
      | .KakaoPayRedirect
      | .GoPayRedirect
      | .GcashRedirect
      | .ApplePay
      | .ApplePayRedirect
      | .ApplePayThirdPartySdk
      | .DanaRedirect
      | .GooglePayRedirect
      | .GooglePayThirdPartySdk
      | .MobilePayRedirect
      | .PaypalSdk
      | .Paze
      | .SamsungPay
      | .TwintRedirect
      | .VippsRedirect
      | .TouchNGoRedirect
      | .WeChatPayQr
      | .CashappQr
      | .SwishQr
      | .Mifinity
      | .RevolutPay =>
          .error (.NotImplemented (get_unimplemented_payment_method_error_message "multisafepay"))
  | .BankRedirect bank_data =>
      match bank_data with
      | .Giropay => .ok (some .Giropay)
      | .Ideal _ => .ok (some .Ideal)
      | .Trustly => .ok (some .Trustly)
      | .Eps => .ok (some .Eps)
      | .Sofort => .ok (some .Sofort)
      | .BancontactCard
      | .Bizum
      | .Blik
      | .Eft
      | .Interac
      | .OnlineBankingCzechRepublic
      | .OnlineBankingFinland
      | .OnlineBankingPoland
      | .OnlineBankingSlovakia
      | .OpenBankingUk
      | .Przelewy24
      | .OnlineBankingFpx
      | .OnlineBankingThailand
      | .LocalBankRedirect =>
          .error (.NotImplemented (get_unimplemented_payment_method_error_message "multisafepay"))
  | .PayLater .KlarnaRedirect => .ok (some .Klarna)
  | .MandatePayment => .ok none
  | .CardRedirect
  | .PayLater _
  | .BankDebit
  | .BankTransfer
  | .Crypto
  | .Reward
  | .RealTimePayment
  | .MobilePayment
  | .Upi
  | .Voucher
  | .GiftCard
  | .OpenBanking
  | .CardToken
  | .NetworkToken
  | .CardDetailsForNetworkTransactionId =>
      .error (.NotImplemented (get_unimplemented_payment_method_error_message "multisafepay"))

/-- Gateway-info assembly of the authorize builder, transformers.rs
lines 726-869. -/
def multisafepayGatewayInfoOf (rd : PaymentsAuthorizeRouterData) :
    Except ConnectorError (Option GatewayInfo) :=
  match rd.request.payment_method_data with
  | .Card ccard => do
      let yy ← ccard.get_card_expiry_year_2_digit
      .ok (some (.Card
        { card_number := some ccard.card_number
          card_holder_name := none
          card_expiry_date := some (parse_i32_or_default (yy ++ ccard.card_exp_month))
          card_cvc := some ccard.card_cvc
          flexible_3d := none
          moto := none
          term_url := none }))
  | .Wallet wallet_data =>
      match wallet_data with
      | .GooglePay token => .ok (some (.Wallet (.GooglePay { payment_token := some token })))
      | .AliPayRedirect => .ok (some (.Wallet .Alipay))
      | .PaypalRedirect => .ok none
      | .WeChatPayRedirect => .ok (some (.Wallet .WeChatPay))
      | .MbWayRedirect => .ok (some (.Wallet .MbWay))
      | .AliPayQr
      | .AliPayHkRedirect
      | .AmazonPayRedirect
      | .Paysera
      | .Skrill
      | .MomoRedirect
      | .KakaoPayRedirect
      | .GoPayRedirect
      | .GcashRedirect
      | .ApplePay
      | .ApplePayRedirect
      | .ApplePayThirdPartySdk
      | .DanaRedirect
      | .GooglePayRedirect
      | .GooglePayThirdPartySdk
      | .MobilePayRedirect
      | .PaypalSdk
      | .Paze
      | .SamsungPay
      | .TwintRedirect
      | .VippsRedirect
      | .TouchNGoRedirect
      | .WeChatPayQr
      | .CashappQr
      | .SwishQr
      | .Mifinity
      | .RevolutPay =>
          .error (.NotImplemented (get_unimplemented_payment_method_error_message "multisafepay"))
  | .PayLater paylater => do
      let em ←
        match paylater with
        | .KlarnaRedirect => get_billing_email rd
        | .KlarnaSdk
        | .AffirmRedirect
        | .AfterpayClearpayRedirect
        | .PayBrightRedirect
        | .WalleyRedirect
        | .AlmaRedirect
        | .AtomeRedirect
        | .BreadpayRedirect =>
            .error (.NotImplemented (get_unimplemented_payment_method_error_message "multisafepay"))
      .ok (some (.PayLater { email := some em }))
  | .BankRedirect bank_redirect_data =>
      match bank_redirect_data with
      | .Ideal bank_name => do
          let bn ←
            match bank_name with
            | some b => .ok b
            | none => .error (.MissingRequiredField "ideal.bank_name")
          let issuer ← MultisafepayBankNames.tryFromBankNames bn
          .ok (some (.BankRedirect (.Ideal { issuer_id := issuer })))
      | .Trustly => .ok (some (.BankRedirect .Trustly))
      | .Eps => .ok (some (.BankRedirect .Eps))
      | .Sofort => .ok (some (.BankRedirect .Sofort))
      | .BancontactCard
      | .Bizum
      | .Blik
      | .Eft
      | .Giropay
      | .Interac
      | .OnlineBankingCzechRepublic
      | .OnlineBankingFinland
      | .OnlineBankingPoland
      | .OnlineBankingSlovakia
      | .OpenBankingUk
      | .Przelewy24
      | .OnlineBankingFpx
      | .OnlineBankingThailand
      | .LocalBankRedirect => .ok none
  | .MandatePayment => .ok none
  | .CardRedirect
  | .BankDebit
  | .BankTransfer
  | .Crypto
  | .Reward
  | .RealTimePayment
  | .MobilePayment
  | .Upi
  | .Voucher
  | .GiftCard
  | .CardToken
  | .OpenBanking
  | .NetworkToken
  | .CardDetailsForNetworkTransactionId =>
      .error (.NotImplemented (get_unimplemented_payment_method_error_message "multisafepay"))

/-- TryFrom MultisafepayRouterData for MultisafepayPaymentsRequest,
transformers.rs lines 509-911: the authorize-request builder, with its steps
sequenced in source order. -/
def multisafepayPaymentsRequestTryFrom (item : MultisafepayRouterData) :
    Except ConnectorError MultisafepayPaymentsRequest := do
  let payment_type ← multisafepayPaymentTypeOf item.router_data.request.payment_method_data
  let gateway ← multisafepayGatewayOf item.router_data.request.payment_method_data
  let description ← get_description item.router_data
  let redirect_url ← get_router_return_url item.router_data.request
  let cancel_url ← get_router_return_url item.router_data.request
  let payment_options : PaymentOptions :=
    { notification_url := none
      notification_method := none
      redirect_url := redirect_url
      cancel_url := cancel_url
      close_window := none
      settings := none
      template_id := none
      allowed_countries := none }
  let customer : Customer :=
    { browser := none
      locale := none
      ip_address := none
      forward_ip := none
      first_name := none
      last_name := none
      gender := none
      birthday := none
      address1 := none
      address2 := none
      house_number := none
      zip_code := none
      city := none
      state := none
      country := none
      phone := none
      email := item.router_data.request.email
      user_agent := none
      referrer := none
      reference := some item.router_data.connector_request_reference_id }
  let billing ← get_billing item.router_data
  let billing_address ←
    match billing.address with
    | some a => .ok a
    | none => .error (.MissingRequiredField "billing.address")
  let first_name ← billing_address.get_first_name
  let delivery : DeliveryObject :=
    { first_name := first_name
      last_name := exceptUnwrapOr billing_address.get_last_name first_name
      address1 := ← billing_address.get_line1
      house_number := ← billing_address.get_line2
      zip_code := ← billing_address.get_zip
      city := ← billing_address.get_city
      country := ← billing_address.get_country }
  let gateway_info ← multisafepayGatewayInfoOf item.router_data
  .ok
    { payment_type := payment_type
      gateway := gateway
      order_id := item.router_data.connector_request_reference_id
      currency := item.router_data.request.currency
      amount := item.amount
      description := description
      payment_options := some payment_options
      customer := some customer
      gateway_info := gateway_info
      delivery := some delivery
      checkout_options := none
      shopping_cart := none
      items := none
      recurring_model :=
        if item.router_data.request.mandate_payment_flag then some .Unscheduled else none
      recurring_id :=
        item.router_data.request.mandate_id.bind fun mandate_ids =>
          match mandate_ids.mandate_reference_id with
          | some (.ConnectorMandateId connector_mandate_id) => connector_mandate_id
          | _ => none
      capture := none
      days_active := some 30
      seconds_active := some 259200
      var1 := none
      var2 := none
      var3 := none }

/-- Wallet variants that have no Multisafepay vendor mapping: exactly the
or-pattern group of transformers.rs lines 525-551. -/
def walletHasNoVendorMapping (w : WalletData) : Bool :=
  match w with
  | .GooglePay _ => false
  | .PaypalRedirect => false
  | .AliPayRedirect => false
  | .WeChatPayRedirect => false
  | .MbWayRedirect => false
  | _ => true

/-! ### Multisafepay response parsing -/

/-- Vendor payment status, transformers.rs lines 931-940. -/
inductive MultisafepayPaymentStatus where
  | Completed
  | Declined
  | Initialized
  | Void
  | Uncleared
deriving DecidableEq

/-- From MultisafepayPaymentStatus for AttemptStatus, transformers.rs
lines 948-958. -/
def attemptStatusFromMultisafepay (item : MultisafepayPaymentStatus) : AttemptStatus :=
  match item with
  | .Completed => .Charged
  | .Declined => .Failure
  | .Initialized => .AuthenticationPending
  | .Uncleared => .Pending
  | .Void => .Voided

/-- Payment details block of the vendor success payload; the serde_json Value
of external_transaction_id is modelled as a string, it is never read. -/
structure MultisafepayPaymentDetails where
  account_holder_name : Option String
  account_id : Option String
  card_expiry_date : Option String
  external_transaction_id : Option String
  last4 : Option String
  recurring_flow : Option String
  recurring_id : Option String
  recurring_model : Option String
  payment_type : Option String
deriving DecidableEq

/-- Data block of the vendor success payload, transformers.rs lines 960-974.
The payment Url is modelled as its string rendering. -/
structure Data where
  payment_type : Option String
  order_id : String
  currency : Option String
  amount : Option Int
  description : Option String
  capture : Option String
  payment_url : Option String
  status : Option MultisafepayPaymentStatus
  reason : Option String
  reason_code : Option String
  payment_details : Option MultisafepayPaymentDetails
deriving DecidableEq

/-- Vendor success payload shape. -/
structure MultisafepayPaymentsResponse where
  success : Bool
  data : Data
deriving DecidableEq

/-- Untagged union of the authorize response: error shape or success shape. -/
inductive MultisafepayAuthResponse where
  | ErrorResponse (e : MultisafepayErrorResponse)
  | PaymentResponse (p : MultisafepayPaymentsResponse)
deriving DecidableEq

/-- HTTP method of a redirect form. -/
inductive Method where
  | Get
  | Post
deriving DecidableEq

/-- Modelled from the spec: RedirectForm (hyperswitch_domain_models, outside
this file) built by From of a url and a method. -/
structure RedirectForm where
  endpoint : String
  method : Method
deriving DecidableEq

/-- Canonical error envelope (router_data ErrorResponse, outside this file);
the fields populated by this connector are modelled. -/
structure ErrorResponse where
  code : String
  message : String
  reason : Option String
  status_code : Nat
  attempt_status : Option AttemptStatus
  connector_transaction_id : Option String
  network_advice_code : Option String
  network_decline_code : Option String
  network_error_message : Option String
deriving DecidableEq

/-- Canonical mandate reference attached to a successful response. -/
structure MandateReference where
  connector_mandate_id : Option String
  payment_method_id : Option String
  mandate_metadata : Option String
  connector_mandate_request_reference_id : Option String
deriving DecidableEq

/-- Resource id of a successful transaction response. -/
inductive ResponseId where
  | ConnectorTransactionId (id : String)
  | EncodedData (data : String)
  | NoResponseId
deriving DecidableEq

/-- Field block of the TransactionResponse variant as populated by this
connector. -/
structure TransactionResponseFields where
  resource_id : ResponseId
  redirection_data : Option RedirectForm
  mandate_reference : Option MandateReference
  connector_metadata : Option String
  network_txn_id : Option String
  connector_response_reference_id : Option String
  incremental_authorization_allowed : Option Bool
  charges : Option String
deriving DecidableEq

/-- Canonical payments response data; only the TransactionResponse variant is
produced by this connector. -/
inductive PaymentsResponseData where
  | TransactionResponse (fields : TransactionResponseFields)
deriving DecidableEq

/-- Modelled from the spec: the sentinel NO_ERROR_CODE constant of
hyperswitch_interfaces consts, named by the spec as the code substituted when
the vendor omitted one. -/
def NO_ERROR_CODE : String := "NO_ERROR_CODE"

/-- Modelled from the spec: the sentinel NO_ERROR_MESSAGE constant of
hyperswitch_interfaces consts, named by the spec as the message substituted
when the vendor omitted one. -/
def NO_ERROR_MESSAGE : String := "NO_ERROR_MESSAGE"

/-- populate_error_reason, transformers.rs lines 1085-1104. -/
def populate_error_reason (code : Option String) (message : Option String)
    (reason : Option String) (http_code : Nat)
    (attempt_status : Option AttemptStatus)
    (connector_transaction_id : Option String) : ErrorResponse :=
  { code := code.getD NO_ERROR_CODE
    message := message.getD NO_ERROR_MESSAGE
    reason := reason
    status_code := http_code
    attempt_status := attempt_status
    connector_transaction_id := connector_transaction_id
    network_advice_code := none
    network_decline_code := none
    network_error_message := none }

/-- Modelled from the spec: utils is_payment_failure (outside this file)
classifies the canonical failure statuses. -/
def is_payment_failure (status : AttemptStatus) : Bool :=
  match status with
  | .AuthenticationFailed
  | .AuthorizationFailed
  | .CaptureFailed
  | .VoidFailed
  | .Failure => true
  | _ => false

/-- TryFrom ResponseRouterData of a MultisafepayAuthResponse for RouterData,
transformers.rs lines 1003-1084. The result pairs the attempt status stored
on the router data (the previous one is kept on the error-shape arm, matching
the item.data spread) with the canonical response. -/
def multisafepayHandleAuthResponse (prev_status : AttemptStatus) (http_code : Nat)
    (resp : MultisafepayAuthResponse) :
    AttemptStatus × Except ErrorResponse PaymentsResponseData :=
  match resp with
  | .PaymentResponse payment_response =>
      let redirection_data := payment_response.data.payment_url.map
        (fun url => RedirectForm.mk url Method.Get)
      let default_status :=
        if payment_response.success then MultisafepayPaymentStatus.Initialized
        else MultisafepayPaymentStatus.Declined
      let status :=
        attemptStatusFromMultisafepay (payment_response.data.status.getD default_status)
      (status,
        if is_payment_failure status then
          .error (populate_error_reason payment_response.data.reason_code
            payment_response.data.reason payment_response.data.reason http_code
            (some status) (some payment_response.data.order_id))
        else
          .ok (.TransactionResponse
            { resource_id := .ConnectorTransactionId payment_response.data.order_id
              redirection_data := redirection_data
              mandate_reference :=
                (payment_response.data.payment_details.bind
                  (fun payment_details => payment_details.recurring_id)).map
                  (fun id =>
                    { connector_mandate_id := some id
                      payment_method_id := none
                      mandate_metadata := none
                      connector_mandate_request_reference_id := none })
              connector_metadata := none
              network_txn_id := none
              connector_response_reference_id := some payment_response.data.order_id
              incremental_authorization_allowed := none
              charges := none }))
  | .ErrorResponse error_response =>
      let attempt_status := multisafepayErrorStatus error_response
      (prev_status,
        .error (populate_error_reason (some (toString error_response.error_code))
          (some error_response.error_info) (some error_response.error_info)
          http_code attempt_status none))

/-! ### Multisafepay refunds -/

/-- Vendor refund status, transformers.rs lines 1136-1142. -/
inductive RefundStatus where
  | Succeeded
  | Failed
  | Processing
deriving DecidableEq

/-- Canonical three-state refund status. -/
inductive CanonicalRefundStatus where
  | Success
  | Failure
  | Pending
deriving DecidableEq

/-- From RefundStatus for the canonical refund status, transformers.rs
lines 1144-1152. -/
def canonicalRefundStatusFrom (item : RefundStatus) : CanonicalRefundStatus :=
  match item with
  | .Succeeded => .Success
  | .Failed => .Failure
  | .Processing => .Pending

/-- Data block of the vendor refund payload; i64 ids are modelled as Int. -/
structure RefundData where
  transaction_id : Int
  refund_id : Int
  order_id : Option String
  error_code : Option Int
  error_info : Option String
deriving DecidableEq

/-- Vendor refund success payload. -/
structure RefundResponse where
  success : Bool
  data : RefundData
deriving DecidableEq

/-- Untagged union of the refund response: error shape or refund shape. -/
inductive MultisafepayRefundResponse where
  | ErrorResponse (e : MultisafepayErrorResponse)
  | RefundResponse (r : RefundResponse)
deriving DecidableEq

/-- Canonical refunds response data. -/
structure RefundsResponseData where
  connector_refund_id : String
  refund_status : CanonicalRefundStatus
deriving DecidableEq

/-- TryFrom RefundsResponseRouterData for the Execute flow, transformers.rs
lines 1175-1217; the error-shape arm builds the canonical envelope directly,
with no sentinel substitution. -/
def multisafepayHandleRefundExecute (http_code : Nat)
    (resp : MultisafepayRefundResponse) : Except ErrorResponse RefundsResponseData :=
  match resp with
  | .RefundResponse refund_data =>
      let refund_status :=
        if refund_data.success then RefundStatus.Succeeded else RefundStatus.Failed
      .ok
        { connector_refund_id := toString refund_data.data.refund_id
          refund_status := canonicalRefundStatusFrom refund_status }
  | .ErrorResponse error_response =>
      let attempt_status := multisafepayErrorStatus error_response
      .error
        { code := toString error_response.error_code
          message := error_response.error_info
          reason := some error_response.error_info
          status_code := http_code
          attempt_status := attempt_status
          connector_transaction_id := none
          network_advice_code := none
          network_decline_code := none
          network_error_message := none }

/-- TryFrom RefundsResponseRouterData for the RSync flow, transformers.rs
lines 1219-1255; the error-shape arm goes through populate_error_reason. -/
def multisafepayHandleRefundRSync (http_code : Nat)
    (resp : MultisafepayRefundResponse) : Except ErrorResponse RefundsResponseData :=
  match resp with
  | .RefundResponse refund_data =>
      let refund_status :=
        if refund_data.success then RefundStatus.Succeeded else RefundStatus.Failed
      .ok
        { connector_refund_id := toString refund_data.data.refund_id
          refund_status := canonicalRefundStatusFrom refund_status }
  | .ErrorResponse error_response =>
      .error (populate_error_reason (some (toString error_response.error_code))
        (some error_response.error_info) (some error_response.error_info)
        http_code none none)

/-! ### Concrete field compilers used by the witnesses -/

/-- Field compiler that renders a string field as itself, standing for a
ToSql instance that always succeeds. -/
def stringFieldToSql : String → TableEngine → Except CompileError String :=
  fun s _ => .ok s

/-- Field compiler that always fails, standing for a ToSql instance whose
field expression does not compile. -/
def failingFieldToSql : Unit → TableEngine → Except CompileError String :=
  fun _ _ => .error { cause := "invalid nested field reference", attached := [] }

/-! ## Theorems settling the claims -/

/-- Helper: the attempt status stored by the success-shape arm of the
authorize response handler is the mapped vendor status, defaulted on the
success flag. -/
theorem multisafepayAuthStatusFormula (prev : AttemptStatus) (http : Nat)
    (p : MultisafepayPaymentsResponse) :
    (multisafepayHandleAuthResponse prev http (.PaymentResponse p)).1
      = attemptStatusFromMultisafepay
          (p.data.status.getD (if p.success then .Initialized else .Declined)) := rfl

/-- C6: a Count aggregate compiled against a CollapsingMergeTree engine with
sign column sign_flag yields exactly sum(sign_flag); against a basic engine
it yields count(*); against a basic engine with alias total it yields
count(*) as total; and with no alias the result carries no " as " clause. -/
theorem count_aggregate_c6 :
    ∀ (T : Type) (fts : T → TableEngine → Except CompileError String) (field : Option T),
    Aggregate.toSql fts (.Count field none) (.CollapsingMergeTree "sign_flag")
        = .ok "sum(sign_flag)"
    ∧ Aggregate.toSql fts (.Count field none) .BasicTree = .ok "count(*)"
    ∧ Aggregate.toSql fts (.Count field (some "total")) .BasicTree
        = .ok "count(*) as total"
    ∧ ¬ (" as ".toList <:+: "sum(sign_flag)".toList)
    ∧ ¬ (" as ".toList <:+: "count(*)".toList) := by
  intro T fts field
  exact ⟨rfl, rfl, rfl, by decide, by decide⟩

/-- C7: a Sum aggregate whose field compiles successfully multiplies the
summed field by the sign column on a CollapsingMergeTree engine, and sums
the bare field on a basic engine. -/
theorem sum_aggregate_c7 :
    ∀ (T : Type) (fts : T → TableEngine → Except CompileError String) (field : T)
      (s f g : String) (al : Option String),
    fts field (.CollapsingMergeTree s) = .ok f →
    fts field .BasicTree = .ok g →
    Aggregate.toSql fts (.Sum field al) (.CollapsingMergeTree s)
        = .ok ("sum(" ++ s ++ " * " ++ f ++ ")" ++ aliasClause al)
    ∧ Aggregate.toSql fts (.Sum field al) .BasicTree
        = .ok ("sum(" ++ g ++ ")" ++ aliasClause al) := by
  intro T fts field s f g al h1 h2
  constructor
  · simp [Aggregate.toSql, attachOnError, h1]
  · simp [Aggregate.toSql, attachOnError, h2]

/-- Witness for C7 at a concrete field compiler. -/
theorem sum_aggregate_c7_witness :
    Aggregate.toSql stringFieldToSql (.Sum "amount" none) (.CollapsingMergeTree "sign_flag")
        = .ok ("sum(" ++ "sign_flag" ++ " * " ++ "amount" ++ ")" ++ aliasClause none)
    ∧ Aggregate.toSql stringFieldToSql (.Sum "amount" none) .BasicTree
        = .ok ("sum(" ++ "amount" ++ ")" ++ aliasClause none) :=
  sum_aggregate_c7 String stringFieldToSql "amount" "sign_flag" "amount" "amount" none rfl rfl

/-- C8: a Percentile aggregate whose field compiles to f yields exactly
quantilesExact(0.50)(f)[1] with no percentile parameter and
quantilesExact(0.90)(f)[1] with parameter 90. -/
theorem percentile_aggregate_c8 :
    ∀ (T : Type) (fts : T → TableEngine → Except CompileError String) (field : T)
      (eng : TableEngine) (f : String),
    fts field eng = .ok f →
    Aggregate.toSql fts (.Percentile field none none) eng
        = .ok ("quantilesExact(0.50)(" ++ f ++ ")[1]")
    ∧ Aggregate.toSql fts (.Percentile field none (some 90)) eng
        = .ok ("quantilesExact(0.90)(" ++ f ++ ")[1]") := by
  intro T fts field eng f h
  have h90 : (toString (90 : Nat) : String) = "90" := rfl
  constructor
  · simp [Aggregate.toSql, attachOnError, h, aliasClause, String.append_assoc]
  · simp [Aggregate.toSql, attachOnError, h, aliasClause, h90, String.append_assoc]

/-- Witness for C8 at a concrete field compiler. -/
theorem percentile_aggregate_c8_witness :
    Aggregate.toSql stringFieldToSql (.Percentile "latency" none none) .BasicTree
        = .ok ("quantilesExact(0.50)(" ++ "latency" ++ ")[1]")
    ∧ Aggregate.toSql stringFieldToSql (.Percentile "latency" none (some 90)) .BasicTree
        = .ok ("quantilesExact(0.90)(" ++ "latency" ++ ")[1]") :=
  percentile_aggregate_c8 String stringFieldToSql "latency" .BasicTree "latency" rfl

/-- C9 counterexample: with a failing field, the DistinctCount arm attaches
the description "Failed to percentile aggregate" — identical to the
Percentile arm's description and not naming DistinctCount — so the attached
description does not name the aggregate that failed. -/
theorem aggregate_error_naming_c9_counterexample :
    Aggregate.toSql failingFieldToSql (.DistinctCount () none) .BasicTree
        = .error { cause := "invalid nested field reference",
                   attached := ["Failed to percentile aggregate"] }
    ∧ Aggregate.toSql failingFieldToSql (.Percentile () none none) .BasicTree
        = .error { cause := "invalid nested field reference",
                   attached := ["Failed to percentile aggregate"] }
    ∧ ¬ ("distinct".toList <:+: "Failed to percentile aggregate".toList) :=
  ⟨rfl, rfl, by decide⟩

/-- C9 amended: whenever the inner field expression fails to compile, every
aggregate arm (Sum, Min, Max, Percentile, DistinctCount) propagates the
error with an attached description and returns no partial SQL; the
description names the aggregate for Sum, Min, Max and Percentile, while the
DistinctCount arm reuses the percentile description. -/
theorem aggregate_error_naming_c9_amended :
    ∀ (T : Type) (fts : T → TableEngine → Except CompileError String) (field : T)
      (al : Option String) (p : Option Nat) (eng : TableEngine) (e : CompileError),
    fts field eng = .error e →
    Aggregate.toSql fts (.Sum field al) eng
        = .error (attachPrintable "Failed to sum aggregate" e)
    ∧ Aggregate.toSql fts (.Min field al) eng
        = .error (attachPrintable "Failed to min aggregate" e)
    ∧ Aggregate.toSql fts (.Max field al) eng
        = .error (attachPrintable "Failed to max aggregate" e)
    ∧ Aggregate.toSql fts (.Percentile field al p) eng
        = .error (attachPrintable "Failed to percentile aggregate" e)
    ∧ Aggregate.toSql fts (.DistinctCount field al) eng
        = .error (attachPrintable "Failed to percentile aggregate" e) := by
  intro T fts field al p eng e h
  refine ⟨?_, ?_, ?_, ?_, ?_⟩
  · cases eng <;> simp [Aggregate.toSql, attachOnError, h]
  · simp [Aggregate.toSql, attachOnError, h]
  · simp [Aggregate.toSql, attachOnError, h]
  · simp [Aggregate.toSql, attachOnError, h]
  · simp [Aggregate.toSql, attachOnError, h]

/-- Witness for the amended C9 at a concrete failing field compiler. -/
theorem aggregate_error_naming_c9_witness :
    Aggregate.toSql failingFieldToSql (.Sum () none) .BasicTree
        = .error (attachPrintable "Failed to sum aggregate"
            { cause := "invalid nested field reference", attached := [] })
    ∧ Aggregate.toSql failingFieldToSql (.Min () none) .BasicTree
        = .error (attachPrintable "Failed to min aggregate"
            { cause := "invalid nested field reference", attached := [] })
    ∧ Aggregate.toSql failingFieldToSql (.Max () none) .BasicTree
        = .error (attachPrintable "Failed to max aggregate"
            { cause := "invalid nested field reference", attached := [] })
    ∧ Aggregate.toSql failingFieldToSql (.Percentile () none none) .BasicTree
        = .error (attachPrintable "Failed to percentile aggregate"
            { cause := "invalid nested field reference", attached := [] })
    ∧ Aggregate.toSql failingFieldToSql (.DistinctCount () none) .BasicTree
        = .error (attachPrintable "Failed to percentile aggregate"
            { cause := "invalid nested field reference", attached := [] }) :=
  aggregate_error_naming_c9_amended Unit failingFieldToSql () none none .BasicTree
    { cause := "invalid nested field reference", attached := [] } rfl

/-- C10: a Percentile parameter p below 10 is concatenated as digits after
"0.", so it denotes p tenths rather than p hundredths; in particular the
parameters 5 and 50 denote the same quantile. -/
theorem percentile_single_digit_c10 :
    ∀ (T : Type) (fts : T → TableEngine → Except CompileError String) (field : T)
      (eng : TableEngine) (f : String) (p : Nat),
    p < 10 →
    fts field eng = .ok f →
    Aggregate.toSql fts (.Percentile field none (some p)) eng
        = .ok ("quantilesExact(0." ++ toString p ++ ")(" ++ f ++ ")[1]")
    ∧ quantileValue (toString p) = p
    ∧ quantileScale (toString p) = 10
    ∧ sameQuantile (toString 5) (toString 50) := by
  intro T fts field eng f p hp h
  refine ⟨?_, ?_, ?_, ?_⟩
  · simp [Aggregate.toSql, attachOnError, h, aliasClause, String.append_assoc]
  · interval_cases p <;> decide
  · interval_cases p <;> decide
  · unfold sameQuantile
    decide

/-- Witness for C10 at the parameter 5. -/
theorem percentile_single_digit_c10_witness :
    Aggregate.toSql stringFieldToSql (.Percentile "latency" none (some 5)) .BasicTree
        = .ok ("quantilesExact(0." ++ toString 5 ++ ")(" ++ "latency" ++ ")[1]")
    ∧ quantileValue (toString 5) = 5
    ∧ quantileScale (toString 5) = 10
    ∧ sameQuantile (toString 5) (toString 50) :=
  percentile_single_digit_c10 String stringFieldToSql "latency" .BasicTree "latency" 5
    (by decide) rfl

/-- C3: the vendor error-code lookup is total by construction, maps 1017 to
AuthorizationFailed and 10001 to AuthenticationFailed, and maps every code
outside the curated table to none. -/
theorem error_code_lookup_c3 :
    ∀ (info : String),
    multisafepayErrorStatus { error_code := 1017, error_info := info }
        = some .AuthorizationFailed
    ∧ multisafepayErrorStatus { error_code := 10001, error_info := info }
        = some .AuthenticationFailed
    ∧ (∀ c : Int, c ∉ multisafepayCuratedCodes →
        multisafepayErrorStatus { error_code := c, error_info := info } = none) := by
  intro info
  refine ⟨rfl, rfl, ?_⟩
  intro c hc
  simp only [multisafepayCuratedCodes, List.mem_append, List.mem_singleton, not_or] at hc
  simp [multisafepayErrorStatus, hc.1.1, hc.1.2, hc.2]

/-- Witness for C3 at the uncurated code 9999. -/
theorem error_code_lookup_c3_witness :
    multisafepayErrorStatus { error_code := 9999, error_info := "" } = none :=
  (error_code_lookup_c3 "").2.2 9999 (by decide)

/-- C5: every canonical bank name in the supported Multisafepay catalog maps
canonical to vendor to canonical as the identity, and every canonical bank
name outside the catalog fails with NotSupported naming the connector
Multisafepay. -/
theorem bank_catalog_roundtrip_c5 :
    (∀ b : BankNames, b ∈ multisafepaySupportedBanks →
      ∃ v, MultisafepayBankNames.tryFromBankNames b = .ok v ∧ v.toBankNames = b)
    ∧ (∀ b : BankNames, b ∉ multisafepaySupportedBanks →
        MultisafepayBankNames.tryFromBankNames b
          = .error (.NotSupported "BankRedirect" "Multisafepay")) := by
  constructor
  · intro b hb
    fin_cases hb <;> exact ⟨_, rfl, rfl⟩
  · intro b hb
    cases b <;> first | rfl | exact absurd (by decide) hb

/-- Witness for C5 at the supported bank Ing and the unsupported bank Chase. -/
theorem bank_catalog_roundtrip_c5_witness :
    (∃ v, MultisafepayBankNames.tryFromBankNames .Ing = .ok v ∧ v.toBankNames = .Ing)
    ∧ MultisafepayBankNames.tryFromBankNames .Chase
        = .error (.NotSupported "BankRedirect" "Multisafepay") :=
  ⟨bank_catalog_roundtrip_c5.1 .Ing (by decide),
   bank_catalog_roundtrip_c5.2 .Chase (by decide)⟩

/-- C2: on the success shape, the canonical attempt status is the mapped
vendor status when present, else Initialized mapped on success true, else
Declined mapped; it depends only on the vendor status field and the success
flag; and parsing the same response twice yields identical output. -/
theorem authorize_response_status_c2 :
    ∀ (prev : AttemptStatus) (http : Nat) (p : MultisafepayPaymentsResponse),
    (multisafepayHandleAuthResponse prev http (.PaymentResponse p)).1
        = attemptStatusFromMultisafepay
            (p.data.status.getD (if p.success then .Initialized else .Declined))
    ∧ (∀ (prev2 : AttemptStatus) (http2 : Nat) (q : MultisafepayPaymentsResponse),
        q.data.status = p.data.status → q.success = p.success →
        (multisafepayHandleAuthResponse prev2 http2 (.PaymentResponse q)).1
          = (multisafepayHandleAuthResponse prev http (.PaymentResponse p)).1)
    ∧ multisafepayHandleAuthResponse prev http (.PaymentResponse p)
        = multisafepayHandleAuthResponse prev http (.PaymentResponse p) := by
  intro prev http p
  refine ⟨rfl, ?_, rfl⟩
  intro prev2 http2 q hs hb
  rw [multisafepayAuthStatusFormula, multisafepayAuthStatusFormula, hs, hb]

/-- Witness for C2: two parses with the same vendor status field and success
flag but different surrounding router state and payload agree. -/
theorem authorize_response_status_c2_witness :
    (multisafepayHandleAuthResponse .Pending 200 (.PaymentResponse
      { success := true
        data := { payment_type := none, order_id := "ord1", currency := none,
                  amount := none, description := none, capture := none,
                  payment_url := none, status := some .Completed, reason := none,
                  reason_code := none, payment_details := none } })).1
      = attemptStatusFromMultisafepay
          (((some MultisafepayPaymentStatus.Completed).getD
            (if true then .Initialized else .Declined)))
    ∧ (multisafepayHandleAuthResponse .Charged 500 (.PaymentResponse
      { success := true
        data := { payment_type := some "direct", order_id := "ord2", currency := none,
                  amount := some 99, description := none, capture := none,
                  payment_url := none, status := some .Completed, reason := some "r",
                  reason_code := none, payment_details := none } })).1
      = (multisafepayHandleAuthResponse .Pending 200 (.PaymentResponse
      { success := true
        data := { payment_type := none, order_id := "ord1", currency := none,
                  amount := none, description := none, capture := none,
                  payment_url := none, status := some .Completed, reason := none,
                  reason_code := none, payment_details := none } })).1 := by
  refine ⟨(authorize_response_status_c2 .Pending 200 _).1, ?_⟩
  exact (authorize_response_status_c2 .Pending 200 _).2.1 .Charged 500 _ rfl rfl

/-- C4 counterexample: on the authorize error path a vendor error_info that
is present but empty produces a canonical envelope with an empty message; no
sentinel is substituted, though the sentinel itself is non-empty. -/
theorem error_envelope_c4_counterexample :
    (multisafepayHandleAuthResponse .Pending 500
        (.ErrorResponse { error_code := 1024, error_info := "" })).2
      = .error { code := "1024", message := "", reason := some "",
                 status_code := 500, attempt_status := some .Failure,
                 connector_transaction_id := none, network_advice_code := none,
                 network_decline_code := none, network_error_message := none }
    ∧ NO_ERROR_MESSAGE ≠ "" := by
  exact ⟨rfl, by decide⟩

/-- C4 amended: on the three populate_error_reason paths (authorize error
shape, payment-failure, refund RSync error shape) a missing vendor code or
message is replaced by the non-empty sentinels NO_ERROR_CODE and
NO_ERROR_MESSAGE, while a present vendor string is passed through verbatim
(so a present empty string stays empty); the authorize and refund error
shapes carry the decimal rendering of the integer vendor code as the code;
and the refund Execute error path builds its envelope directly with no
sentinel substitution at all. -/
theorem error_envelope_c4_amended :
    ∀ (http : Nat) (prev : AttemptStatus) (e : MultisafepayErrorResponse)
      (p : MultisafepayPaymentsResponse) (c m : String) (r t : Option String)
      (s : Option AttemptStatus),
    (populate_error_reason none none r http s t).code = NO_ERROR_CODE
    ∧ (populate_error_reason none none r http s t).message = NO_ERROR_MESSAGE
    ∧ NO_ERROR_CODE ≠ "" ∧ NO_ERROR_MESSAGE ≠ ""
    ∧ (populate_error_reason (some c) (some m) r http s t).code = c
    ∧ (populate_error_reason (some c) (some m) r http s t).message = m
    ∧ (multisafepayHandleAuthResponse prev http (.ErrorResponse e)).2
        = .error (populate_error_reason (some (toString e.error_code))
            (some e.error_info) (some e.error_info) http
            (multisafepayErrorStatus e) none)
    ∧ (p.data.status = some .Declined →
        (multisafepayHandleAuthResponse prev http (.PaymentResponse p)).2
          = .error (populate_error_reason p.data.reason_code p.data.reason
              p.data.reason http (some .Failure) (some p.data.order_id)))
    ∧ multisafepayHandleRefundExecute http (.ErrorResponse e)
        = .error { code := toString e.error_code, message := e.error_info,
                   reason := some e.error_info, status_code := http,
                   attempt_status := multisafepayErrorStatus e,
                   connector_transaction_id := none, network_advice_code := none,
                   network_decline_code := none, network_error_message := none }
    ∧ multisafepayHandleRefundRSync http (.ErrorResponse e)
        = .error (populate_error_reason (some (toString e.error_code))
            (some e.error_info) (some e.error_info) http none none) := by
  intro http prev e p c m r t s
  refine ⟨rfl, rfl, by decide, by decide, rfl, rfl, rfl, ?_, rfl, rfl⟩
  intro hst
  simp [multisafepayHandleAuthResponse, hst, attemptStatusFromMultisafepay,
    is_payment_failure]

/-- Witness for the amended C4 at concrete vendor responses, including a
payment-failure payload with a declined vendor status. -/
theorem error_envelope_c4_witness :
    (populate_error_reason none none none 402 none none).code = NO_ERROR_CODE
    ∧ (multisafepayHandleRefundExecute 402
        (.ErrorResponse { error_code := 1034, error_info := "cannot refund" }))
      = .error { code := toString (1034 : Int), message := "cannot refund",
                 reason := some "cannot refund", status_code := 402,
                 attempt_status :=
                   multisafepayErrorStatus { error_code := 1034, error_info := "cannot refund" },
                 connector_transaction_id := none, network_advice_code := none,
                 network_decline_code := none, network_error_message := none }
    ∧ (multisafepayHandleAuthResponse .Pending 402 (.PaymentResponse
        { success := false
          data := { payment_type := none, order_id := "ordX", currency := none,
                    amount := none, description := none, capture := none,
                    payment_url := none, status := some .Declined,
                    reason := some "declined", reason_code := some "r1",
                    payment_details := none } })).2
      = .error (populate_error_reason (some "r1") (some "declined")
          (some "declined") 402 (some .Failure) (some "ordX")) := by
  refine ⟨?_, ?_, ?_⟩
  · exact (error_envelope_c4_amended 402 .Pending
      { error_code := 0, error_info := "" }
      { success := false
        data := { payment_type := none, order_id := "x", currency := none,
                  amount := none, description := none, capture := none,
                  payment_url := none, status := none, reason := none,
                  reason_code := none, payment_details := none } }
      "" "" none none none).1
  · exact (error_envelope_c4_amended 402 .Pending
      { error_code := 1034, error_info := "cannot refund" }
      { success := false
        data := { payment_type := none, order_id := "x", currency := none,
                  amount := none, description := none, capture := none,
                  payment_url := none, status := none, reason := none,
                  reason_code := none, payment_details := none } }
      "" "" none none none).2.2.2.2.2.2.2.2.1
  · exact (error_envelope_c4_amended 402 .Pending
      { error_code := 0, error_info := "" }
      { success := false
        data := { payment_type := none, order_id := "ordX", currency := none,
                  amount := none, description := none, capture := none,
                  payment_url := none, status := some .Declined,
                  reason := some "declined", reason_code := some "r1",
                  payment_details := none } }
      "" "" none none none).2.2.2.2.2.2.2.1 rfl

/-- C1: the authorize-request builder rejects every wallet variant without a
vendor mapping with NotImplemented, whatever the rest of the router data
holds; and for a card whose issuer is in the supported set it builds a
request with payment_type Direct and a Card gateway_info block carrying the
card number, the parsed two-digit-year plus month expiry, and the cvc. -/
theorem authorize_request_builder_c1 :
    (∀ (amount : Int) (w : WalletData) (cur : String) (em : Option String)
       (ru : Option String) (mid : Option MandateIds) (mf : Bool)
       (d : Option String) (ref : String) (bil : Option Address)
       (bem : Option String),
      walletHasNoVendorMapping w = true →
      multisafepayPaymentsRequestTryFrom
        { amount := amount
          router_data :=
          { request :=
            { payment_method_data := .Wallet w, currency := cur, email := em,
              router_return_url := ru, mandate_id := mid, mandate_payment_flag := mf }
            description := d
            connector_request_reference_id := ref
            billing := bil
            billing_email := bem } }
        = .error (.NotImplemented
            (get_unimplemented_payment_method_error_message "multisafepay")))
    ∧ (∀ (amount : Int) (num mm yy cvc : String) (iss : CardIssuer) (cur : String)
         (em : Option String) (ret : String) (mid : Option MandateIds) (mf : Bool)
         (desc ref : String) (bem : Option String) (fn : String) (ln : Option String)
         (l1 l2 zip city country : String),
      iss ∈ [CardIssuer.AmericanExpress, .Master, .Maestro, .Discover, .Visa] →
      ∃ req, multisafepayPaymentsRequestTryFrom
        { amount := amount
          router_data :=
          { request :=
            { payment_method_data := .Card
                { card_number := num, card_exp_month := mm, card_exp_year := yy,
                  card_cvc := cvc, issuer := iss }
              currency := cur, email := em, router_return_url := some ret,
              mandate_id := mid, mandate_payment_flag := mf }
            description := some desc
            connector_request_reference_id := ref
            billing := some (Address.mk (some
              { first_name := some fn, last_name := ln, line1 := some l1,
                line2 := some l2, zip := some zip, city := some city,
                country := some country }))
            billing_email := bem } } = .ok req
        ∧ req.payment_type = .Direct
        ∧ req.gateway_info = some (.Card
            { card_number := some num
              card_holder_name := none
              card_expiry_date := some (parse_i32_or_default (yy.takeRight 2 ++ mm))
              card_cvc := some cvc
              flexible_3d := none
              moto := none
              term_url := none })) := by
  constructor
  · intro amount w cur em ru mid mf d ref bil bem h
    cases w <;> first | rfl | exact Bool.noConfusion h
  · intro amount num mm yy cvc iss cur em ret mid mf desc ref bem fn ln l1 l2 zip city country h
    fin_cases h <;> exact ⟨_, rfl, rfl, rfl⟩

/-- Witness for C1 at the unmapped wallet ApplePay and a concrete Visa card. -/
theorem authorize_request_builder_c1_witness :
    multisafepayPaymentsRequestTryFrom
      { amount := 1000
        router_data :=
        { request :=
          { payment_method_data := .Wallet .ApplePay, currency := "EUR", email := none,
            router_return_url := none, mandate_id := none, mandate_payment_flag := false }
          description := none
          connector_request_reference_id := "ref1"
          billing := none
          billing_email := none } }
      = .error (.NotImplemented
          (get_unimplemented_payment_method_error_message "multisafepay"))
    ∧ ∃ req, multisafepayPaymentsRequestTryFrom
      { amount := 1000
        router_data :=
        { request :=
          { payment_method_data := .Card
              { card_number := "4111111111111111", card_exp_month := "12",
                card_exp_year := "2025", card_cvc := "123", issuer := .Visa }
            currency := "EUR", email := none, router_return_url := some "https://r",
            mandate_id := none, mandate_payment_flag := false }
          description := some "order"
          connector_request_reference_id := "ref2"
          billing := some (Address.mk (some
            { first_name := some "Ann", last_name := none, line1 := some "l1",
              line2 := some "12a", zip := some "1000", city := some "Amsterdam",
              country := some "NL" }))
          billing_email := none } } = .ok req
      ∧ req.payment_type = .Direct
      ∧ req.gateway_info = some (.Card
          { card_number := some "4111111111111111"
            card_holder_name := none
            card_expiry_date := some (parse_i32_or_default ("2025".takeRight 2 ++ "12"))
            card_cvc := some "123"
            flexible_3d := none
            moto := none
            term_url := none }) :=
  ⟨authorize_request_builder_c1.1 1000 .ApplePay "EUR" none none none false none
      "ref1" none none rfl,
   authorize_request_builder_c1.2 1000 "4111111111111111" "12" "2025" "123" .Visa
      "EUR" none "https://r" none false "order" "ref2" none "Ann" none "l1" "12a"
      "1000" "Amsterdam" "NL" (by decide)⟩

end Hyperswitch
